import Mathlib

/-!
Shallow embedding of the booking bot in `src/main.py`.

Dates are modelled as proleptic Gregorian ordinals, exactly as Python
`datetime.date.toordinal` assigns them: day 1 is 0001-01-01, a Monday,
and `date.weekday()` returns `(ordinal - 1) % 7` with Monday = 0 and
Sunday = 6.  `timedelta(days = n)` is ordinal addition.  Python strings
are Lean `String`; `str.split(sep)` on a one-character separator is
`py_split`.  The sqlite table `bookings` is a list of rows plus the next
AUTOINCREMENT id; `datetime.utcnow()` values are passed in as explicit
`now` / `ts` arguments.  Telegram message sends that can throw are
modelled by an `admin_ok : Bool` flag: `false` means the send to the
admin raised, which the source catches at lines 163-169.
-/

namespace Main

/-- Conversation state constants from `ASK_FILE_COUNT, ASK_DATE, ASK_DOC = range(3)`
in the source, together with the `ConversationHandler.END` sentinel (-1)
of python-telegram-bot. -/
def ASK_FILE_COUNT : Int := 0

def ASK_DATE : Int := 1

def ASK_DOC : Int := 2

def END : Int := -1

/-- One row of the `bookings` table (see `init_db`, lines 31-47). -/
structure Booking where
  id : Nat
  user_id : Nat
  username : String
  date : String
  status : String
  doc_file_id : String
  doc_file_name : Option String
  created_at : String
  deriving DecidableEq

/-- The `bookings` table: its rows plus the next AUTOINCREMENT id
(sqlite starts ids at 1 and `cur.lastrowid` is the id just inserted). -/
structure Store where
  rows : List Booking
  next_id : Nat
  deriving DecidableEq

/-- The per-user `context.user_data` dict; the conversation only ever
stores the key `chosen_date` in it. -/
structure Session where
  chosen_date : Option String
  deriving DecidableEq

/-- `add_booking` (source lines 49-59): inserts a row with status
`PENDING` and `created_at` = the `utcnow` value (passed here as `now`),
and returns `cur.lastrowid`. -/
def add_booking (store : Store) (user_id : Nat) (username : String)
    (date_str : String) (doc_file_id : String) (doc_file_name : Option String)
    (now : String) : Store × Nat :=
  let b : Booking :=
    ⟨store.next_id, user_id, username, date_str, "PENDING", doc_file_id, doc_file_name, now⟩
  (⟨store.rows ++ [b], store.next_id + 1⟩, store.next_id)

/-- `count_bookings_for_date` (lines 61-67):
`SELECT COUNT(*) FROM bookings WHERE date = ? AND status = 'APPROVED'`. -/
def count_bookings_for_date (store : Store) (date_str : String) : Nat :=
  (store.rows.filter (fun b => b.date == date_str && b.status == "APPROVED")).length

/-- `user_has_booking_on_date` (lines 69-75):
`SELECT COUNT(*) ... WHERE user_id = ? AND date = ?`, then `count > 0`. -/
def user_has_booking_on_date (store : Store) (user_id : Nat) (date_str : String) : Bool :=
  decide (0 < (store.rows.filter (fun b => b.user_id == user_id && b.date == date_str)).length)

/-- Python `datetime.date.weekday()` on an ordinal: Monday = 0 .. Sunday = 6. -/
def pyWeekday (o : Nat) : Nat := (o + 6) % 7

/-- Gregorian leap year test. -/
def is_leap (y : Nat) : Bool := (y % 4 == 0 && y % 100 != 0) || y % 400 == 0

/-- Days in the months strictly before month `m` of a common year. -/
def days_in_months_before : Nat → Nat
  | 1 => 0
  | 2 => 31
  | 3 => 59
  | 4 => 90
  | 5 => 120
  | 6 => 151
  | 7 => 181
  | 8 => 212
  | 9 => 243
  | 10 => 273
  | 11 => 304
  | 12 => 334
  | _ => 0

/-- Days in year `y` strictly before month `m`, with the leap-day shift. -/
def days_before_month (y m : Nat) : Nat :=
  days_in_months_before m + (if 2 < m then (if is_leap y then 1 else 0) else 0)

/-- Python `date(y, m, d).toordinal()`: days since 0000-12-31. -/
def toordinal (y m d : Nat) : Nat :=
  365 * (y - 1) + (y - 1) / 4 - (y - 1) / 100 + (y - 1) / 400 + days_before_month y m + d

/-- `is_allowed_weekday` (lines 78-79): `dt.weekday() in (6, 0, 1, 2, 3)`. -/
def is_allowed_weekday (d : Nat) : Bool := decide (pyWeekday d ∈ [6, 0, 1, 2, 3])

/-- `generate_next_two_weeks_buttons` (lines 81-90), as the list of date
ordinals put on the buttons: for `i in range(14)`, `d = today + i` is
kept unless `d < today + 2` or its weekday is disallowed. -/
def generate_next_two_weeks_buttons (today : Nat) : List Nat :=
  ((List.range 14).map (fun i => today + i)).filter
    (fun d => decide (today + 2 ≤ d) && is_allowed_weekday d)

/-- Python `str.split(sep)` for a single-character separator, on the
character list of the string.  `"".split(sep)` is `[""]`. -/
def py_split (sep : Char) : List Char → List (List Char)
  | [] => [[]]
  | c :: cs =>
    if c = sep then [] :: py_split sep cs
    else
      match py_split sep cs with
      | [] => [[c]]
      | t :: ts => (c :: t) :: ts

/-- `query.data.split(':')[1]` from line 117.  The source indexes blindly;
the handler is only dispatched when the data matches `^date:`, so index 1
exists there.  Out of range we default to the empty string. -/
def parse_date_token (data : String) : String :=
  ⟨(py_split ':' data.data).getD 1 []⟩

/-- The `pattern=r'^date:'` filter of the `CallbackQueryHandler`
registered for the `ASK_DATE` state (line 191). -/
def starts_with_date_tag (data : String) : Bool :=
  match data.data with
  | 'd' :: 'a' :: 't' :: 'e' :: ':' :: _ => true
  | _ => false

/-- What one handler invocation produces: the value it returns to the
`ConversationHandler`, the resulting `user_data`, the resulting table,
and the texts sent back to the user (in order). -/
structure HandlerResult where
  ret : Int
  session : Session
  store : Store
  replies : List String
  deriving DecidableEq

/-- `schedule_start` (lines 107-112): prompt with the date buttons and
return `ASK_DATE`; `user_data` is not touched. -/
def schedule_start (store : Store) (sess : Session) : HandlerResult :=
  ⟨ASK_DATE, sess, store,
    ["Please select a booking date (only Sun–Thu, at least 2 days in advance):"]⟩

/-- `receive_date_button` (lines 114-130). -/
def receive_date_button (store : Store) (user_id : Nat) (data : String)
    (sess : Session) : HandlerResult :=
  let date_str := parse_date_token data
  if user_has_booking_on_date store user_id date_str then
    ⟨ASK_DATE, sess, store, ["You already have a booking on " ++ date_str ++ "."]⟩
  else if 10 ≤ count_bookings_for_date store date_str then
    ⟨ASK_DATE, sess, store, [date_str ++ " is fully booked. Choose another date."]⟩
  else
    ⟨ASK_DOC, ⟨some date_str⟩, store,
      ["Selected date: " ++ date_str ++ "\nNow, please upload your document(s)."]⟩

/-- A file attachment carried by a message: a document (whose
`file_name` may be absent) or a photo. -/
inductive Attachment where
  | document (file_id : String) (file_name : Option String)
  | photo (file_id : String)
  deriving DecidableEq

/-- `receive_document` (lines 132-172).  The guard at line 135 is
`if not date_str:` — Python truthiness — so it fires both when
`user_data` has no `chosen_date` key (`get` returns None) and when the
stored value is the empty string; both take the Date-missing / END
path.  `att = none` is a message with neither document nor photo;
`username.getD ""` is `user.username or ''`; `ts` is
`int(datetime.utcnow().timestamp())` for the photo filename;
`admin_ok = false` means a send to the admin raised and the `except`
branch runs. -/
def receive_document (store : Store) (user_id : Nat) (username : Option String)
    (sess : Session) (att : Option Attachment) (now : String) (ts : Nat)
    (admin_ok : Bool) : HandlerResult :=
  match sess.chosen_date with
  | none => ⟨END, sess, store, ["Date missing. Please start with /schedule."]⟩
  | some date_str =>
    if date_str = "" then
      ⟨END, sess, store, ["Date missing. Please start with /schedule."]⟩
    else
      match att with
      | none => ⟨ASK_DOC, sess, store, ["Please send a file or photo as the document."]⟩
      | some a =>
        let ff : String × Option String :=
          match a with
          | .document fid fname => (fid, fname)
          | .photo fid =>
              (fid, some ("photo_" ++ toString user_id ++ "_" ++ toString ts ++ ".jpg"))
        let res := add_booking store user_id (username.getD "") date_str ff.1 ff.2 now
        if admin_ok then
          ⟨END, sess, res.1, ["Booking submitted. You will be notified after admin approval."]⟩
        else
          ⟨END, sess, res.1, ["Failed to send booking to admin. Please contact support."]⟩

/-- `cancel` (lines 174-176), the universal fallback. -/
def cancel (store : Store) (sess : Session) : HandlerResult :=
  ⟨END, sess, store, ["Booking canceled."]⟩

/-- An inbound update, as the registered handlers discriminate them:
a bot command, a callback query, a message carrying a document or photo,
or a plain text message. -/
inductive Msg where
  | command (name : String)
  | callback (data : String)
  | media (att : Attachment)
  | text (s : String)
  deriving DecidableEq

/-- A handler result that leaves everything unchanged and sends nothing:
what happens when no registered handler of the conversation matches the
update. -/
def noop (state : Int) (store : Store) (sess : Session) : HandlerResult :=
  ⟨state, sess, store, []⟩

/-- One dispatch step of the `conv_handler` built at lines 187-200.
In `ASK_DATE` the handlers are the `^date:` callback handler and the
re-entrant `/schedule` entry point; in `ASK_DOC` they are the
`(Document.ALL | PHOTO) & ~COMMAND` message handler and `/schedule`;
`/cancel` is the fallback, tried when no state handler matches.  With no
active conversation only the `/schedule` entry point fires.  Anything
else is left to the `ConversationHandler` unmatched: state, session and
store are unchanged and no reply is sent. -/
def conv_step (state : Int) (store : Store) (sess : Session) (user_id : Nat)
    (username : Option String) (now : String) (ts : Nat) (admin_ok : Bool)
    (m : Msg) : HandlerResult :=
  if state = ASK_DATE then
    match m with
    | .callback data =>
      if starts_with_date_tag data then receive_date_button store user_id data sess
      else noop state store sess
    | .command n =>
      if n = "schedule" then schedule_start store sess
      else if n = "cancel" then cancel store sess
      else noop state store sess
    | _ => noop state store sess
  else if state = ASK_DOC then
    match m with
    | .media a => receive_document store user_id username sess (some a) now ts admin_ok
    | .command n =>
      if n = "schedule" then schedule_start store sess
      else if n = "cancel" then cancel store sess
      else noop state store sess
    | _ => noop state store sess
  else
    match m with
    | .command n =>
      if n = "schedule" then schedule_start store sess
      else noop state store sess
    | _ => noop state store sess

/-- Well-formedness of the table: every row id is below the next
AUTOINCREMENT id, as sqlite maintains. -/
def Store.WF (s : Store) : Prop := ∀ b ∈ s.rows, b.id < s.next_id

/-- A string with no colon in it, such as an ISO date. -/
def colon_free (s : String) : Prop := ∀ c ∈ s.data, c ≠ ':'

/-- The store query `user_has_booking_on_date` answers true exactly when
some row of the table has the given user and date, whatever its status. -/
theorem user_has_booking_iff (store : Store) (u : Nat) (d : String) :
    user_has_booking_on_date store u d = true ↔
      ∃ b ∈ store.rows, b.user_id = u ∧ b.date = d := by
  unfold user_has_booking_on_date
  rw [decide_eq_true_eq, List.length_pos_iff_exists_mem]
  constructor
  · rintro ⟨b, hb⟩
    rw [List.mem_filter] at hb
    refine ⟨b, hb.1, ?_⟩
    have h2 := hb.2
    simp only [Bool.and_eq_true, beq_iff_eq] at h2
    exact h2
  · rintro ⟨b, hb, h1, h2⟩
    exact ⟨b, List.mem_filter.mpr ⟨hb, by simp [h1, h2]⟩⟩

/-- Splitting never yields the empty list of fragments. -/
theorem py_split_ne_nil (sep : Char) : ∀ l : List Char, py_split sep l ≠ [] := by
  intro l
  induction l with
  | nil => simp [py_split]
  | cons c cs ih =>
    by_cases h : c = sep
    · simp [py_split, h]
    · simp only [py_split, if_neg h]
      cases hs : py_split sep cs with
      | nil => simp
      | cons t ts => simp

/-- The first fragment of a split is the longest separator-free front. -/
theorem py_split_headD (sep : Char) : ∀ l : List Char,
    (py_split sep l).headD [] = l.takeWhile (fun c => c != sep) := by
  intro l
  induction l with
  | nil => simp [py_split]
  | cons c cs ih =>
    by_cases h : c = sep
    · subst h
      simp [py_split, List.takeWhile_cons]
    · have hp : (c != sep) = true := by simp [h]
      rw [@List.takeWhile_cons_of_pos _ (fun x => x != sep) c cs hp]
      cases hs : py_split sep cs with
      | nil => exact absurd hs (py_split_ne_nil sep cs)
      | cons t ts =>
        rw [hs] at ih
        simp only [List.headD] at ih
        simp [py_split, if_neg h, hs, ih]

/-- Splitting `"date:" ++ s` at colons yields `"date"` and then the
fragments of `s`. -/
theorem py_split_date_tag (s : String) :
    py_split ':' ("date:" ++ s).data =
      ('d' :: 'a' :: 't' :: 'e' :: []) :: py_split ':' s.data := by
  have hdata : ("date:" ++ s).data = 'd' :: 'a' :: 't' :: 'e' :: ':' :: s.data := rfl
  rw [hdata]
  have h0 : py_split ':' (':' :: s.data) = [] :: py_split ':' s.data := by
    simp [py_split]
  have h1 : py_split ':' ('e' :: ':' :: s.data) =
      ('e' :: []) :: py_split ':' s.data := by
    simp [py_split, h0]
  have h2 : py_split ':' ('t' :: 'e' :: ':' :: s.data) =
      ('t' :: 'e' :: []) :: py_split ':' s.data := by
    simp [py_split, h1]
  have h3 : py_split ':' ('a' :: 't' :: 'e' :: ':' :: s.data) =
      ('a' :: 't' :: 'e' :: []) :: py_split ':' s.data := by
    simp [py_split, h2]
  simp [py_split, h3]

/-- What line 117 extracts from the token `"date:" ++ s`: the part of
`s` before its first colon. -/
theorem parse_date_token_tag (s : String) :
    parse_date_token ("date:" ++ s) = ⟨s.data.takeWhile (fun c => c != ':')⟩ := by
  unfold parse_date_token
  rw [py_split_date_tag]
  cases hs : py_split ':' s.data with
  | nil => exact absurd hs (py_split_ne_nil ':' s.data)
  | cons t ts =>
    have hh := py_split_headD ':' s.data
    rw [hs] at hh
    simp only [List.headD] at hh
    simp [List.getD, hh]

/-- A scan that accepts every element returns the whole list. -/
theorem takeWhile_of_all {p : Char → Bool} :
    ∀ l : List Char, (∀ c ∈ l, p c = true) → l.takeWhile p = l := by
  intro l
  induction l with
  | nil => intro _; rfl
  | cons c cs ih =>
    intro h
    have hc : p c = true := h c (by simp)
    rw [List.takeWhile_cons_of_pos hc, ih (fun x hx => h x (by simp [hx]))]

/-- On a colon-free `s`, line 117 recovers `s` itself from `"date:" ++ s`. -/
theorem parse_date_token_colon_free (s : String) (h : colon_free s) :
    parse_date_token ("date:" ++ s) = s := by
  rw [parse_date_token_tag]
  have : s.data.takeWhile (fun c => c != ':') = s.data := by
    refine takeWhile_of_all s.data (fun c hc => ?_)
    simpa using h c hc
  rw [this]

/-- The `^date:` pattern matches every token of shape `"date:" ++ s`. -/
theorem starts_with_date_tag_append (s : String) :
    starts_with_date_tag ("date:" ++ s) = true := rfl

/-- In state `ASK_DATE`, a callback `"date:" ++ s` is dispatched to
`receive_date_button`. -/
theorem conv_step_date_callback (store : Store) (sess : Session) (u : Nat)
    (un : Option String) (now : String) (ts : Nat) (ok : Bool) (s : String) :
    conv_step ASK_DATE store sess u un now ts ok (.callback ("date:" ++ s)) =
      receive_date_button store u ("date:" ++ s) sess := by
  simp [conv_step, starts_with_date_tag_append]

instance (s : String) : Decidable (colon_free s) :=
  inferInstanceAs (Decidable (∀ c ∈ s.data, c ≠ ':'))

instance (s : Store) : Decidable s.WF :=
  inferInstanceAs (Decidable (∀ b ∈ s.rows, b.id < s.next_id))

/-- A row approved by the admin for 2024-01-10, with id and user `i`. -/
def approved_row (i : Nat) : Booking :=
  ⟨i, i, "", "2024-01-10", "APPROVED", "", none, ""⟩

/-- A table holding ten APPROVED bookings for 2024-01-10 by users 1..10:
the date is at capacity. -/
def store10 : Store := ⟨(List.range 10).map (fun i => approved_row (i + 1)), 11⟩

/-- A table holding one PENDING booking by user 1 for 2024-01-10. -/
def store1 : Store :=
  ⟨[⟨1, 1, "", "2024-01-10", "PENDING", "", none, ""⟩], 2⟩

/-- C1, counterexample: user 1 owns one of the ten APPROVED bookings of
the fully booked 2024-01-10.  Selecting it is rejected in `AWAITING_DATE`
but with the already-booked message, not the fully-booked one, because
line 120 checks duplicates before line 124 checks capacity. -/
theorem capacity_full_message_counterexample :
    10 ≤ count_bookings_for_date store10 "2024-01-10" ∧
    (conv_step ASK_DATE store10 ⟨none⟩ 1 none "" 0 true
      (.callback "date:2024-01-10")).ret = ASK_DATE ∧
    (conv_step ASK_DATE store10 ⟨none⟩ 1 none "" 0 true
      (.callback "date:2024-01-10")).replies =
        ["You already have a booking on 2024-01-10."] ∧
    (conv_step ASK_DATE store10 ⟨none⟩ 1 none "" 0 true
      (.callback "date:2024-01-10")).replies ≠
        ["2024-01-10 is fully booked. Choose another date."] := by
  decide

/-- C1, amended: when a colon-free date `d` has at least 10 APPROVED
bookings, selecting it in `AWAITING_DATE` is always rejected: the state
stays `AWAITING_DATE`, the session and the table are unchanged (no
`chosen_date` is recorded), and the reply is the fully-booked message
when the requester has no booking on `d`, and the already-booked message
when they do. -/
theorem capacity_full_rejects (store : Store) (u : Nat) (d : String) (sess : Session)
    (un : Option String) (now : String) (ts : Nat) (ok : Bool)
    (hd : colon_free d)
    (hcap : 10 ≤ count_bookings_for_date store d) :
    (conv_step ASK_DATE store sess u un now ts ok (.callback ("date:" ++ d))).ret = ASK_DATE ∧
    (conv_step ASK_DATE store sess u un now ts ok (.callback ("date:" ++ d))).session = sess ∧
    (conv_step ASK_DATE store sess u un now ts ok (.callback ("date:" ++ d))).store = store ∧
    (user_has_booking_on_date store u d = false →
      (conv_step ASK_DATE store sess u un now ts ok (.callback ("date:" ++ d))).replies =
        [d ++ " is fully booked. Choose another date."]) ∧
    (user_has_booking_on_date store u d = true →
      (conv_step ASK_DATE store sess u un now ts ok (.callback ("date:" ++ d))).replies =
        ["You already have a booking on " ++ d ++ "."]) := by
  rw [conv_step_date_callback]
  cases hb : user_has_booking_on_date store u d with
  | false => simp [receive_date_button, parse_date_token_colon_free d hd, hb, hcap]
  | true => simp [receive_date_button, parse_date_token_colon_free d hd, hb]

/-- C1, witness: user 11 (no booking of their own) selecting the fully
booked 2024-01-10 on `store10`. -/
theorem capacity_full_rejects_witness :
    colon_free "2024-01-10" ∧
    10 ≤ count_bookings_for_date store10 "2024-01-10" ∧
    ((conv_step ASK_DATE store10 ⟨none⟩ 11 none "" 0 true
        (.callback ("date:" ++ "2024-01-10"))).ret = ASK_DATE ∧
     (conv_step ASK_DATE store10 ⟨none⟩ 11 none "" 0 true
        (.callback ("date:" ++ "2024-01-10"))).session = ⟨none⟩ ∧
     (conv_step ASK_DATE store10 ⟨none⟩ 11 none "" 0 true
        (.callback ("date:" ++ "2024-01-10"))).store = store10 ∧
     (user_has_booking_on_date store10 11 "2024-01-10" = false →
       (conv_step ASK_DATE store10 ⟨none⟩ 11 none "" 0 true
          (.callback ("date:" ++ "2024-01-10"))).replies =
            ["2024-01-10" ++ " is fully booked. Choose another date."]) ∧
     (user_has_booking_on_date store10 11 "2024-01-10" = true →
       (conv_step ASK_DATE store10 ⟨none⟩ 11 none "" 0 true
          (.callback ("date:" ++ "2024-01-10"))).replies =
            ["You already have a booking on " ++ "2024-01-10" ++ "."])) :=
  ⟨by decide, by decide,
    capacity_full_rejects store10 11 "2024-01-10" ⟨none⟩ none "" 0 true
      (by decide) (by decide)⟩

/-- C2: if any row for the pair `(u, d)` exists — whatever its status —
then `u` selecting the colon-free date `d` is rejected with the
already-booked message, the state stays `AWAITING_DATE`, and the session
and table are unchanged. -/
theorem duplicate_rejects (store : Store) (u : Nat) (d : String) (sess : Session)
    (un : Option String) (now : String) (ts : Nat) (ok : Bool)
    (hd : colon_free d)
    (hb : ∃ b ∈ store.rows, b.user_id = u ∧ b.date = d) :
    conv_step ASK_DATE store sess u un now ts ok (.callback ("date:" ++ d)) =
      ⟨ASK_DATE, sess, store, ["You already have a booking on " ++ d ++ "."]⟩ := by
  rw [conv_step_date_callback]
  have h : user_has_booking_on_date store u d = true :=
    (user_has_booking_iff store u d).mpr hb
  simp [receive_date_button, parse_date_token_colon_free d hd, h]

/-- C2, witness: user 1 re-selecting 2024-01-10 on `store1`, where their
earlier booking is still PENDING. -/
theorem duplicate_rejects_witness :
    colon_free "2024-01-10" ∧
    (∃ b ∈ store1.rows, b.user_id = 1 ∧ b.date = "2024-01-10") ∧
    conv_step ASK_DATE store1 ⟨none⟩ 1 none "" 0 true
        (.callback ("date:" ++ "2024-01-10")) =
      ⟨ASK_DATE, ⟨none⟩, store1,
        ["You already have a booking on " ++ "2024-01-10" ++ "."]⟩ :=
  ⟨by decide, by decide,
    duplicate_rejects store1 1 "2024-01-10" ⟨none⟩ none "" 0 true
      (by decide) (by decide)⟩

/-- C3: in `AWAITING_DOCUMENT` with a truthy chosen date — the line-135
guard `if not date_str:` only lets a non-empty date through to the
persistence step — uploading a file when the admin send raises
(`admin_ok = false`) persists the booking first, then replies with the
generic failure text and ends the conversation; the new row is still in
the table with status PENDING. -/
theorem dispatch_failure_keeps_pending (store : Store) (u : Nat) (un : Option String)
    (d : String) (a : Attachment) (now : String) (ts : Nat) (hd : d ≠ "") :
    (conv_step ASK_DOC store ⟨some d⟩ u un now ts false (.media a)).ret = END ∧
    (conv_step ASK_DOC store ⟨some d⟩ u un now ts false (.media a)).replies =
      ["Failed to send booking to admin. Please contact support."] ∧
    (∃ b, (conv_step ASK_DOC store ⟨some d⟩ u un now ts false (.media a)).store.rows =
        store.rows ++ [b] ∧
      b.user_id = u ∧ b.date = d ∧ b.status = "PENDING" ∧
      b.created_at = now ∧ b.id = store.next_id) := by
  have hstep : conv_step ASK_DOC store ⟨some d⟩ u un now ts false (.media a) =
      receive_document store u un ⟨some d⟩ (some a) now ts false := rfl
  rw [hstep]
  simp only [receive_document]
  rw [if_neg hd]
  cases a with
  | document fid fname => exact ⟨rfl, rfl, _, rfl, rfl, rfl, rfl, rfl, rfl⟩
  | photo fid => exact ⟨rfl, rfl, _, rfl, rfl, rfl, rfl, rfl, rfl⟩

/-- C3, witness: a document upload for the non-empty date 2024-01-10 on
the empty table, with the admin send raising. -/
theorem dispatch_failure_keeps_pending_witness :
    ("2024-01-10" : String) ≠ "" ∧
    ((conv_step ASK_DOC ⟨[], 1⟩ ⟨some "2024-01-10"⟩ 1 none "t" 0 false
        (.media (.document "f" none))).ret = END ∧
     (conv_step ASK_DOC ⟨[], 1⟩ ⟨some "2024-01-10"⟩ 1 none "t" 0 false
        (.media (.document "f" none))).replies =
          ["Failed to send booking to admin. Please contact support."] ∧
     (∃ b, (conv_step ASK_DOC ⟨[], 1⟩ ⟨some "2024-01-10"⟩ 1 none "t" 0 false
          (.media (.document "f" none))).store.rows = [] ++ [b] ∧
        b.user_id = 1 ∧ b.date = "2024-01-10" ∧ b.status = "PENDING" ∧
        b.created_at = "t" ∧ b.id = 1)) :=
  ⟨by decide,
    dispatch_failure_keeps_pending ⟨[], 1⟩ 1 none "2024-01-10" (.document "f" none)
      "t" 0 (by decide)⟩

/-- C4: `add_booking` appends exactly one row, with status PENDING and
`created_at` the utcnow value passed in, and returns the fresh
AUTOINCREMENT id, which no existing row carries; well-formedness of the
table is preserved, and every row it did not already contain is PENDING. -/
theorem add_booking_spec (store : Store) (u : Nat) (un : String) (d : String)
    (fid : String) (fname : Option String) (now : String)
    (h : store.WF) :
    (add_booking store u un d fid fname now).1.rows =
      store.rows ++ [⟨store.next_id, u, un, d, "PENDING", fid, fname, now⟩] ∧
    (add_booking store u un d fid fname now).2 = store.next_id ∧
    (add_booking store u un d fid fname now).2 ∉ store.rows.map Booking.id ∧
    (add_booking store u un d fid fname now).1.WF ∧
    (∀ b ∈ (add_booking store u un d fid fname now).1.rows,
      b ∉ store.rows → b.status = "PENDING" ∧ b.created_at = now) := by
  refine ⟨rfl, rfl, ?_, ?_, ?_⟩
  · intro hmem
    rw [List.mem_map] at hmem
    obtain ⟨b, hb, hid⟩ := hmem
    have hlt := h b hb
    have hid2 : b.id = store.next_id := hid
    omega
  · intro b hb
    simp only [add_booking, List.mem_append, List.mem_singleton] at hb
    show b.id < store.next_id + 1
    rcases hb with hb | hb
    · have := h b hb
      omega
    · subst hb
      exact Nat.lt_succ_self _
  · intro b hb hnb
    simp only [add_booking, List.mem_append, List.mem_singleton] at hb
    rcases hb with hb | hb
    · exact absurd hb hnb
    · subst hb
      exact ⟨rfl, rfl⟩

/-- C4, witness: inserting into the empty well-formed table. -/
theorem add_booking_spec_witness :
    Store.WF ⟨[], 1⟩ ∧
    ((add_booking ⟨[], 1⟩ 1 "u" "2024-01-10" "f" none "t").1.rows =
        [] ++ [⟨1, 1, "u", "2024-01-10", "PENDING", "f", none, "t"⟩] ∧
     (add_booking ⟨[], 1⟩ 1 "u" "2024-01-10" "f" none "t").2 = 1 ∧
     (add_booking ⟨[], 1⟩ 1 "u" "2024-01-10" "f" none "t").2 ∉
        ([] : List Booking).map Booking.id ∧
     (add_booking ⟨[], 1⟩ 1 "u" "2024-01-10" "f" none "t").1.WF ∧
     (∀ b ∈ (add_booking ⟨[], 1⟩ 1 "u" "2024-01-10" "f" none "t").1.rows,
       b ∉ ([] : List Booking) → b.status = "PENDING" ∧ b.created_at = "t")) :=
  ⟨by decide, add_booking_spec ⟨[], 1⟩ 1 "u" "2024-01-10" "f" none "t" (by decide)⟩

/-- C7: right after `add_booking` succeeds for `(u, d)`, the query
`user_has_booking_on_date` on the resulting table answers true. -/
theorem insert_then_has_booking (store : Store) (u : Nat) (un : String) (d : String)
    (fid : String) (fname : Option String) (now : String) :
    user_has_booking_on_date (add_booking store u un d fid fname now).1 u d = true := by
  rw [user_has_booking_iff]
  exact ⟨⟨store.next_id, u, un, d, "PENDING", fid, fname, now⟩,
    by simp [add_booking], rfl, rfl⟩

/-- C5: for every `today`, the button list holds exactly the dates of
`[today, today + 14)` that are at least two days ahead and fall on
Sunday through Thursday (Python weekdays 6, 0, 1, 2, 3); it holds no
earlier date, no Friday (4) or Saturday (5), and is strictly ascending,
hence duplicate-free. -/
theorem offerable_dates_spec (today : Nat) :
    (∀ d, d ∈ generate_next_two_weeks_buttons today ↔
      (today ≤ d ∧ d < today + 14 ∧ today + 2 ≤ d ∧
        (pyWeekday d = 6 ∨ pyWeekday d = 0 ∨ pyWeekday d = 1 ∨
         pyWeekday d = 2 ∨ pyWeekday d = 3))) ∧
    (∀ d ∈ generate_next_two_weeks_buttons today, today + 2 ≤ d) ∧
    (∀ d ∈ generate_next_two_weeks_buttons today, pyWeekday d ≠ 4 ∧ pyWeekday d ≠ 5) ∧
    (generate_next_two_weeks_buttons today).Pairwise (· < ·) ∧
    (generate_next_two_weeks_buttons today).Nodup := by
  have hmem : ∀ d, d ∈ generate_next_two_weeks_buttons today ↔
      (today ≤ d ∧ d < today + 14 ∧ today + 2 ≤ d ∧
        (pyWeekday d = 6 ∨ pyWeekday d = 0 ∨ pyWeekday d = 1 ∨
         pyWeekday d = 2 ∨ pyWeekday d = 3)) := by
    intro d
    unfold generate_next_two_weeks_buttons is_allowed_weekday
    rw [List.mem_filter]
    simp only [List.mem_map, List.mem_range, Bool.and_eq_true, decide_eq_true_eq,
      List.mem_cons, List.mem_singleton]
    constructor
    · rintro ⟨⟨i, hi, rfl⟩, h2, hw⟩
      refine ⟨by omega, by omega, h2, ?_⟩
      tauto
    · rintro ⟨h1, h2, h3, hw⟩
      exact ⟨⟨d - today, by omega, by omega⟩, h3, by tauto⟩
  have hpair : (generate_next_two_weeks_buttons today).Pairwise (· < ·) := by
    unfold generate_next_two_weeks_buttons
    apply List.Pairwise.filter
    rw [List.pairwise_map]
    exact (List.pairwise_lt_range 14).imp (fun h => by omega)
  refine ⟨hmem, fun d hd => ((hmem d).mp hd).2.2.1, fun d hd => ?_, hpair,
    hpair.imp (fun h => Nat.ne_of_lt h)⟩
  rcases ((hmem d).mp hd).2.2.2 with h | h | h | h | h <;> omega

/-- C6: with today = 2024-01-01 (ordinal 738886, a Monday), the button
list excludes 2024-01-01 and 2024-01-02, starts at 2024-01-03 (a
Wednesday), runs through the 14-day horizon, and contains no Friday or
Saturday: it is exactly January 3, 4, 7, 8, 9, 10, 11 and 14. -/
theorem offerable_dates_jan2024 :
    toordinal 2024 1 1 = 738886 ∧
    pyWeekday (toordinal 2024 1 1) = 0 ∧
    toordinal 2024 1 1 ∉ generate_next_two_weeks_buttons (toordinal 2024 1 1) ∧
    toordinal 2024 1 2 ∉ generate_next_two_weeks_buttons (toordinal 2024 1 1) ∧
    (generate_next_two_weeks_buttons (toordinal 2024 1 1)).head? =
      some (toordinal 2024 1 3) ∧
    pyWeekday (toordinal 2024 1 3) = 2 ∧
    generate_next_two_weeks_buttons (toordinal 2024 1 1) =
      [toordinal 2024 1 3, toordinal 2024 1 4, toordinal 2024 1 7, toordinal 2024 1 8,
       toordinal 2024 1 9, toordinal 2024 1 10, toordinal 2024 1 11,
       toordinal 2024 1 14] ∧
    (∀ d ∈ generate_next_two_weeks_buttons (toordinal 2024 1 1),
      pyWeekday d ≠ 4 ∧ pyWeekday d ≠ 5) := by
  decide

/-- C8, counterexample: a `/schedule` received in `AWAITING_DOCUMENT`
with `chosen_date = "2024-01-10"` restarts at `AWAITING_DATE`, but the
session still carries the old `chosen_date`: `schedule_start` never
clears `user_data`, so partial progress is not discarded. -/
theorem reentry_keeps_chosen_date_counterexample :
    (conv_step ASK_DOC ⟨[], 1⟩ ⟨some "2024-01-10"⟩ 1 none "" 0 true
      (.command "schedule")).ret = ASK_DATE ∧
    (conv_step ASK_DOC ⟨[], 1⟩ ⟨some "2024-01-10"⟩ 1 none "" 0 true
      (.command "schedule")).session.chosen_date = some "2024-01-10" ∧
    some "2024-01-10" ≠ (none : Option String) := by
  decide

/-- C8, amended: a `/schedule` received while in `AWAITING_DATE` or
`AWAITING_DOCUMENT` restarts the conversation at `AWAITING_DATE` and
re-prompts for a date, but the session is returned unchanged: a stored
`chosen_date` is retained, not discarded (it is only overwritten by the
next successful date selection). -/
theorem reentry_restarts_at_date (state : Int) (store : Store) (sess : Session)
    (u : Nat) (un : Option String) (now : String) (ts : Nat) (ok : Bool)
    (h : state = ASK_DATE ∨ state = ASK_DOC) :
    conv_step state store sess u un now ts ok (.command "schedule") =
      ⟨ASK_DATE, sess, store,
        ["Please select a booking date (only Sun–Thu, at least 2 days in advance):"]⟩ := by
  rcases h with h | h <;> subst h <;> rfl

/-- C8, witness: re-entry from `AWAITING_DOCUMENT` with a stored date. -/
theorem reentry_restarts_at_date_witness :
    conv_step ASK_DOC ⟨[], 1⟩ ⟨some "2024-01-10"⟩ 1 none "" 0 true
        (.command "schedule") =
      ⟨ASK_DATE, ⟨some "2024-01-10"⟩, ⟨[], 1⟩,
        ["Please select a booking date (only Sun–Thu, at least 2 days in advance):"]⟩ :=
  reentry_restarts_at_date ASK_DOC ⟨[], 1⟩ ⟨some "2024-01-10"⟩ 1 none "" 0 true
    (Or.inr rfl)

/-- C9, counterexample: a plain text message in `AWAITING_DOCUMENT` is
matched by no registered handler — the message handler of that state
only passes documents and photos — so the state stays `AWAITING_DOCUMENT`
but nothing is sent: the user is not re-prompted. -/
theorem nondoc_input_counterexample :
    (conv_step ASK_DOC ⟨[], 1⟩ ⟨some "2024-01-10"⟩ 1 none "" 0 true
      (.text "hello")).ret = ASK_DOC ∧
    (conv_step ASK_DOC ⟨[], 1⟩ ⟨some "2024-01-10"⟩ 1 none "" 0 true
      (.text "hello")).replies = [] ∧
    (conv_step ASK_DOC ⟨[], 1⟩ ⟨some "2024-01-10"⟩ 1 none "" 0 true
      (.text "hello")).replies ≠ ["Please send a file or photo as the document."] := by
  decide

/-- C9, amended: in `AWAITING_DOCUMENT` a plain text message changes
nothing — state, session, and table are untouched and no reply at all is
sent, so in particular no booking is persisted; the re-prompt branch of
`receive_document` (lines 148-150) does answer with the re-prompt and
stay in `AWAITING_DOCUMENT` whenever the stored date is truthy (a
non-empty string, the only way past the line-135 guard), but the
registered filter `(Document.ALL | PHOTO) & ~COMMAND` makes that branch
unreachable. -/
theorem nondoc_input_ignored (store : Store) (sess : Session) (u : Nat)
    (un : Option String) (now : String) (ts : Nat) (ok : Bool) (s : String) :
    conv_step ASK_DOC store sess u un now ts ok (.text s) =
      ⟨ASK_DOC, sess, store, []⟩ ∧
    (∀ d, d ≠ "" → receive_document store u un ⟨some d⟩ none now ts ok =
      ⟨ASK_DOC, ⟨some d⟩, store, ["Please send a file or photo as the document."]⟩) := by
  refine ⟨rfl, fun d hd => ?_⟩
  simp only [receive_document]
  rw [if_neg hd]

/-- C9, witness: a text message in `AWAITING_DOCUMENT` with the stored
date 2024-01-10 is ignored, while `receive_document` itself would
re-prompt on a no-attachment update for that date. -/
theorem nondoc_input_ignored_witness :
    conv_step ASK_DOC ⟨[], 1⟩ ⟨some "2024-01-10"⟩ 1 none "" 0 true (.text "hi") =
      ⟨ASK_DOC, ⟨some "2024-01-10"⟩, ⟨[], 1⟩, []⟩ ∧
    receive_document ⟨[], 1⟩ 1 none ⟨some "2024-01-10"⟩ none "" 0 true =
      ⟨ASK_DOC, ⟨some "2024-01-10"⟩, ⟨[], 1⟩,
        ["Please send a file or photo as the document."]⟩ :=
  ⟨(nondoc_input_ignored ⟨[], 1⟩ ⟨some "2024-01-10"⟩ 1 none "" 0 true "hi").1,
   (nondoc_input_ignored ⟨[], 1⟩ ⟨some "2024-01-10"⟩ 1 none "" 0 true "hi").2
     "2024-01-10" (by decide)⟩

/-- C10, counterexample: the token `date:a:b` (the `s` after `date:`
being `a:b`) passes the `^date:` pattern and, on an empty table, is
accepted — but the recorded `chosen_date` is `"a"`, not `"a:b"`, because
line 117 takes `split(':')[1]`. -/
theorem date_token_colon_counterexample :
    (conv_step ASK_DATE ⟨[], 1⟩ ⟨none⟩ 1 none "" 0 true
      (.callback "date:a:b")).ret = ASK_DOC ∧
    (conv_step ASK_DATE ⟨[], 1⟩ ⟨none⟩ 1 none "" 0 true
      (.callback "date:a:b")).session.chosen_date = some "a" ∧
    some "a" ≠ some "a:b" := by
  decide

/-- C10, amended: the date-selection handler applies no availability
policy at all: for every string `s` — past date, Friday, Saturday,
beyond the horizon, or no date at all — the token `"date:" ++ s` is
dispatched, and whenever the duplicate and capacity checks pass for the
part of `s` before its first colon, that part (all of `s` when `s` is
colon-free) is stored as `chosen_date` and the conversation advances to
`AWAITING_DOCUMENT`. -/
theorem date_token_accepted (store : Store) (u : Nat) (s : String) (sess : Session)
    (un : Option String) (now : String) (ts : Nat) (ok : Bool)
    (h1 : user_has_booking_on_date store u
      ⟨s.data.takeWhile (fun c => c != ':')⟩ = false)
    (h2 : count_bookings_for_date store
      ⟨s.data.takeWhile (fun c => c != ':')⟩ < 10) :
    conv_step ASK_DATE store sess u un now ts ok (.callback ("date:" ++ s)) =
      ⟨ASK_DOC, ⟨some ⟨s.data.takeWhile (fun c => c != ':')⟩⟩, store,
        ["Selected date: " ++ (⟨s.data.takeWhile (fun c => c != ':')⟩ : String) ++
          "\nNow, please upload your document(s)."]⟩ := by
  rw [conv_step_date_callback]
  have h2n : ¬ 10 ≤ count_bookings_for_date store
      ⟨s.data.takeWhile (fun c => c != ':')⟩ := by omega
  simp [receive_date_button, parse_date_token_tag s, h1, h2n]

/-- C10, witness: the non-date string `9999-99-99` is accepted on the
empty table and stored verbatim. -/
theorem date_token_accepted_witness :
    user_has_booking_on_date ⟨[], 1⟩ 1
      ⟨"9999-99-99".data.takeWhile (fun c => c != ':')⟩ = false ∧
    count_bookings_for_date ⟨[], 1⟩
      ⟨"9999-99-99".data.takeWhile (fun c => c != ':')⟩ < 10 ∧
    conv_step ASK_DATE ⟨[], 1⟩ ⟨none⟩ 1 none "" 0 true
        (.callback ("date:" ++ "9999-99-99")) =
      ⟨ASK_DOC, ⟨some ⟨"9999-99-99".data.takeWhile (fun c => c != ':')⟩⟩, ⟨[], 1⟩,
        ["Selected date: " ++
          (⟨"9999-99-99".data.takeWhile (fun c => c != ':')⟩ : String) ++
          "\nNow, please upload your document(s)."]⟩ :=
  ⟨by decide, by decide,
    date_token_accepted ⟨[], 1⟩ 1 "9999-99-99" ⟨none⟩ none "" 0 true
      (by decide) (by decide)⟩

end Main
